import Mathlib

/-!
Verification development for the BAROQUE metric-queue orchestration and
circuit-comparison engine (files `Baroque.py`, `Print_Metrics.py`,
`BAROQUE_Common_Constants.py`).

Modelling conventions:
* Python `None` versus a real value is modelled with `Option`; a Python
  variable that may hold `None` or a value of type `a` has type `Option a`.
* The file `BAROQUE_Metrics.py` is imported by the repository but is not part
  of the sources; the metric functions it provides are modelled from the
  spec (section 4.1), with the external circuit-depth measure kept opaque as
  a function-valued field of the circuit.
* A Python call that raises an uncaught exception (attribute access on
  `None`) is modelled with `Except PyError`; a formatter that can crash
  returns `Except PyError String`.
-/

/-- A quantum circuit: an opaque ordered sequence of gate operations
(gate-identifier strings), as in the spec glossary.  The external Qiskit
depth measure (spec section 4.1, `circuitDepth`) cannot be computed from the
operation list alone, so it is carried as an opaque function from an optional
basis-gate-set descriptor to the depth. -/
structure Circuit where
  ops : List String
  depthOn : Option String → Nat

/-- Embeds class `Reference` of `Baroque.py` (lines 43-65): a named handle to
a lazily bound value; `val = none` models the Python `_val is None` state. -/
structure Reference (α : Type) where
  val : Option α
  name : String

/-- Embeds `Reference.isEmpty` (`Baroque.py` lines 62-65) for circuit-valued
references: `self._val is None or self._val == ""`.  For a circuit-valued
reference the Python comparison of a circuit with the empty string is always
false, so emptiness is exactly `None`-ness. -/
def Reference.isEmpty (r : Reference Circuit) : Bool :=
  r.val.isNone

/-- Embeds `CONTROL_NOT_GATE` of `BAROQUE_Common_Constants.py`. -/
def CONTROL_NOT_GATE : String := "cx"

/-- Embeds `CONTROL_X_GATE` of `BAROQUE_Common_Constants.py`. -/
def CONTROL_X_GATE : String := "cx"

/-- Embeds `SQRT_X_GATE` of `BAROQUE_Common_Constants.py`. -/
def SQRT_X_GATE : String := "sx"

/-- Embeds `IDENTITY_GATE` of `BAROQUE_Common_Constants.py`. -/
def IDENTITY_GATE : String := "id"

/-- Embeds `ROTATION_Z_GATE` of `BAROQUE_Common_Constants.py`. -/
def ROTATION_Z_GATE : String := "rz"

/-- Embeds `PAULI_X_GATE` of `BAROQUE_Common_Constants.py`. -/
def PAULI_X_GATE : String := "x"

/-- Embeds `RESET_GATE` of `BAROQUE_Common_Constants.py`. -/
def RESET_GATE : String := "reset"

/-- Embeds `MEASURE_GATE` of `BAROQUE_Common_Constants.py`. -/
def MEASURE_GATE : String := "measure"

/-- Embeds the set `valid_gate_strings` of `BAROQUE_Common_Constants.py`
(a Python set used only for membership tests; a list with `contains` has the
same membership semantics). -/
def valid_gate_strings : List String :=
  [CONTROL_NOT_GATE, CONTROL_X_GATE, SQRT_X_GATE, IDENTITY_GATE,
   ROTATION_Z_GATE, PAULI_X_GATE, RESET_GATE, MEASURE_GATE]

/-- Modelled from the spec: the defined failure signalled by the ratio
metrics of the missing `BAROQUE_Metrics.py` when the denominator is zero
(spec sections 4.1 and 7, `DivisionByZero`). -/
inductive MetricFailure where
  | divisionByZero
  deriving DecidableEq

/-- Modelled from the spec: `BAROQUE_Metrics.metricCountGate` is not under
src; spec section 4.1 defines `countGate(circuit, gate)` as the number of
occurrences of `gate` among the circuit's operations. -/
def metricCountGate (circuit : Circuit) (gate_string : String) : Nat :=
  circuit.ops.count gate_string

/-- Modelled from the spec: `BAROQUE_Metrics.metricDiffGate` is not under
src; spec section 4.1: `countGate(circuitB, gate) - countGate(circuitA, gate)`
(compare minus input). -/
def metricDiffGate (circuit_a circuit_b : Circuit) (gate_string : String) : Int :=
  (metricCountGate circuit_b gate_string : Int) - (metricCountGate circuit_a gate_string : Int)

/-- Modelled from the spec: `BAROQUE_Metrics.metricRatioGate` is not under
src; spec section 4.1: `countGate(circuitB,gate) / countGate(circuitA,gate)`,
where a zero denominator signals a `DivisionByZero` condition rather than
crashing or silently producing an infinite value. -/
def metricRatioGate (circuit_a circuit_b : Circuit) (gate_string : String) :
    Except MetricFailure ℚ :=
  if metricCountGate circuit_a gate_string = 0 then
    .error .divisionByZero
  else
    .ok ((metricCountGate circuit_b gate_string : ℚ) / (metricCountGate circuit_a gate_string : ℚ))

/-- Modelled from the spec: `BAROQUE_Metrics.metricCircuitDepth` is not under
src; spec section 4.1 describes the standard depth measure, optionally in a
supplied basis gate set; it is kept opaque as the circuit's depth field. -/
def metricCircuitDepth (circuit : Circuit) (basis_gates : Option String) : Nat :=
  circuit.depthOn basis_gates

/-- Modelled from the spec: `BAROQUE_Metrics.metricDiffDepth` is not under
src; spec section 4.1: `depth(circuitB, basisB) - depth(circuitA, basisA)`,
compare minus input.  `Print_Metrics.py` line 124 calls it with only the two
circuits, so the basis defaults (`None`) are used there. -/
def metricDiffDepth (circuit_a circuit_b : Circuit)
    (basis_a : Option String := none) (basis_b : Option String := none) : Int :=
  (metricCircuitDepth circuit_b basis_b : Int) - (metricCircuitDepth circuit_a basis_a : Int)

/-- Modelled from the spec: `BAROQUE_Metrics.metricRatioDepth` is not under
src; spec section 4.1: `depth(circuitB,basisB) / depth(circuitA,basisA)` with
a zero denominator signalling `DivisionByZero`. -/
def metricRatioDepth (circuit_a circuit_b : Circuit)
    (basis_a basis_b : Option String) : Except MetricFailure ℚ :=
  if metricCircuitDepth circuit_a basis_a = 0 then
    .error .divisionByZero
  else
    .ok ((metricCircuitDepth circuit_b basis_b : ℚ) / (metricCircuitDepth circuit_a basis_a : ℚ))

/-- An uncaught Python exception escaping a formatter.  Applying a metric
function to an unbound circuit (Python `None`) raises an attribute error
inside the metric body (`None` has no circuit methods). -/
inductive PyError where
  | noneTypeAttribute
  deriving DecidableEq

/-- The Python call `Metrics.metricCountGate(c, g)` where `c` may be `None`:
with `None` it raises; otherwise it returns the count. -/
def callCountGate : Option Circuit → String → Except PyError Nat
  | some c, g => .ok (metricCountGate c g)
  | none, _ => .error .noneTypeAttribute

/-- The Python call `Metrics.metricDiffGate(a, b, g)` where either circuit
may be `None`: with `None` it raises; otherwise it returns the difference. -/
def callDiffGate : Option Circuit → Option Circuit → String → Except PyError Int
  | some a, some b, g => .ok (metricDiffGate a b g)
  | _, _, _ => .error .noneTypeAttribute

/-- The Python call `Metrics.metricRatioGate(a, b, g)` where either circuit
may be `None`. -/
def callRatioGate : Option Circuit → Option Circuit → String →
    Except PyError (Except MetricFailure ℚ)
  | some a, some b, g => .ok (metricRatioGate a b g)
  | _, _, _ => .error .noneTypeAttribute

/-- The Python call `Metrics.metricCircuitDepth(c, basis)` where `c` may be
`None`. -/
def callCircuitDepth : Option Circuit → Option String → Except PyError Nat
  | some c, basis => .ok (metricCircuitDepth c basis)
  | none, _ => .error .noneTypeAttribute

/-- The Python call `Metrics.metricDiffDepth(a, b)` where either circuit may
be `None`. -/
def callDiffDepth : Option Circuit → Option Circuit → Except PyError Int
  | some a, some b => .ok (metricDiffDepth a b)
  | _, _ => .error .noneTypeAttribute

/-- The Python call `Metrics.metricRatioDepth(a, b, basisA, basisB)` where
either circuit may be `None`. -/
def callRatioDepth : Option Circuit → Option Circuit → Option String → Option String →
    Except PyError (Except MetricFailure ℚ)
  | some a, some b, ba, bb => .ok (metricRatioDepth a b ba bb)
  | _, _, _, _ => .error .noneTypeAttribute

/-- Python `str` applied to an optional string value: `str(None)` is the
literal `"None"`. -/
def pyStr : Option String → String
  | some s => s
  | none => "None"

/-- Python truthiness-based `or` on an optional string: a falsy left operand
(the empty string or `None`) yields the right operand. -/
def pyOrElse (a b : Option String) : Option String :=
  match a with
  | some s => if s = "" then b else some s
  | none => b

/-- The Python parenthesised expression used in the basis-label guards of
`Print_Metrics.py` (lines 127, 130, 158, 166, 190, 193): the empty string is
falsy, so the expression evaluates to `None`. -/
def pyEmptyOrNone : Option String := pyOrElse (some "") none

/-- Embeds the basis-label expression of `Print_Metrics.py`:
`str(basis_gates if basis_gates is not ("" or None) else "Default Gates")`. -/
def basisLabel (basis_gates : Option String) : String :=
  if basis_gates ≠ pyEmptyOrNone then pyStr basis_gates else "Default Gates"

/-- Embeds the template `METRIC_OUT` of `Print_Metrics.py` (lines 15-18),
applied to its four fields. -/
def METRIC_OUT (metricDesc gateName resultNote result : String) : String :=
  "\nMetric:\t" ++ metricDesc ++ "\nGate:\t" ++ gateName ++
  "\nResult Note:\t" ++ resultNote ++ "\nResult:\t" ++ result ++ "\n"

/-- Embeds the template `METRIC_ERROR` of `Print_Metrics.py` (line 21),
applied to its two fields. -/
def METRIC_ERROR (metricName errorNote : String) : String :=
  "\nERROR - " ++ metricName ++ ": " ++ errorNote ++ "\n"

/-- A block has the `METRIC_ERROR` shape exactly when it starts with the
error prefix; result blocks start with the metric prefix instead. -/
def isErrorBlock (s : String) : Bool :=
  List.isPrefixOf "\nERROR - ".data s.data

/-- The string rendering of a ratio-metric result.  Modelled from the spec:
a successful ratio prints as the number; the `DivisionByZero` condition
prints as its condition name. -/
def ratioResultStr : Except MetricFailure ℚ → String
  | .ok q => toString q
  | .error .divisionByZero => "DivisionByZero"

/-- Embeds `displayCount` of `Print_Metrics.py` (lines 227-235):
`str(Metrics.metricCountGate(circuit.get(), gate_string))`. -/
def displayCount (circuit : Reference Circuit) (gate_string : String) :
    Except PyError String :=
  match callCountGate circuit.val gate_string with
  | .ok n => .ok (toString n)
  | .error e => .error e

/-- Embeds `displayDepth` of `Print_Metrics.py` (lines 238-246):
`str(Metrics.metricCircuitDepth(circuit.get(), basis_gates))`. -/
def displayDepth (circuit : Reference Circuit) (basis_gates : Option String) :
    Except PyError String :=
  match callCircuitDepth circuit.val basis_gates with
  | .ok n => .ok (toString n)
  | .error e => .error e

/-- Embeds `printMetricDiffGate` of `Print_Metrics.py` (lines 24-50).  The
`circuit_b` parameter is `Option (Reference Circuit)` because the source
tests `circuit_b is None` on the argument itself, not on its value. -/
def printMetricDiffGate (circuit_a : Reference Circuit)
    (circuit_b : Option (Reference Circuit)) (gate_string : String) :
    Except PyError String :=
  if valid_gate_strings.contains gate_string = false then
    .ok (METRIC_ERROR "metricDiffGate" "Invalid gate string chosen.")
  else
    match circuit_b with
    | none => .ok (METRIC_ERROR "metricDiffGate" "Compare circuit must be defined.")
    | some bref =>
      match callDiffGate circuit_a.val bref.val gate_string with
      | .error e => .error e
      | .ok result =>
        match displayCount bref gate_string with
        | .error e => .error e
        | .ok compCnt =>
          match displayCount circuit_a gate_string with
          | .error e => .error e
          | .ok impCnt =>
            .ok (METRIC_OUT "Difference in Gate Occurrences" gate_string
              ("(" ++ bref.name ++ ") " ++ compCnt ++ " - (" ++ circuit_a.name ++ ") " ++ impCnt)
              (toString result))

/-- Embeds `printMetricCountGate` of `Print_Metrics.py` (lines 53-80): the
primary count is computed first, then an optional second block when the
compare reference holds a circuit. -/
def printMetricCountGate (circuit_a circuit_b : Reference Circuit)
    (gate_string : String) : Except PyError String :=
  if valid_gate_strings.contains gate_string = false then
    .ok (METRIC_ERROR "metricCountGate" "Invalid gate string chosen.")
  else
    match callCountGate circuit_a.val gate_string with
    | .error e => .error e
    | .ok ra =>
      let result_for_a := toString ra
      match circuit_b.val with
      | none =>
        .ok (METRIC_OUT "Count of Gate Occurrences" gate_string circuit_a.name result_for_a)
      | some cb =>
        let result_for_b := toString (metricCountGate cb gate_string)
        .ok (METRIC_OUT "Count of Gate Occurrences" gate_string circuit_a.name result_for_a
          ++ METRIC_OUT "Count of Gate Occurrences" gate_string circuit_b.name result_for_b)

/-- Embeds `printMetricRatioGate` of `Print_Metrics.py` (lines 83-109). -/
def printMetricRatioGate (circuit_a : Reference Circuit)
    (circuit_b : Option (Reference Circuit)) (gate_string : String) :
    Except PyError String :=
  if valid_gate_strings.contains gate_string = false then
    .ok (METRIC_ERROR "metricRatioGate" "Invalid gate string chosen.")
  else
    match circuit_b with
    | none => .ok (METRIC_ERROR "metricRatioGate" "Compare circuit must be defined.")
    | some bref =>
      match callRatioGate circuit_a.val bref.val gate_string with
      | .error e => .error e
      | .ok result =>
        match displayCount bref gate_string with
        | .error e => .error e
        | .ok compCnt =>
          match displayCount circuit_a gate_string with
          | .error e => .error e
          | .ok impCnt =>
            .ok (METRIC_OUT "Ratio of Gate Occurrences" gate_string
              ("(" ++ bref.name ++ ") " ++ compCnt ++ " / (" ++ circuit_a.name ++ ") " ++ impCnt)
              (ratioResultStr result))

/-- Embeds `printMetricDiffDepth` of `Print_Metrics.py` (lines 112-137). -/
def printMetricDiffDepth (circuit_a : Reference Circuit)
    (circuit_b : Option (Reference Circuit))
    (basis_gates_a basis_gates_b : Option String) : Except PyError String :=
  match circuit_b with
  | none => .ok (METRIC_ERROR "metricDiffDepth" "Compare circuit must be defined.")
  | some bref =>
    match callDiffDepth circuit_a.val bref.val with
    | .error e => .error e
    | .ok result =>
      match displayDepth bref basis_gates_b with
      | .error e => .error e
      | .ok compCnt =>
        match displayDepth circuit_a basis_gates_a with
        | .error e => .error e
        | .ok impCnt =>
          .ok (METRIC_OUT "Difference in Circuit Depth" ""
            ("(" ++ bref.name ++ " in " ++ basisLabel basis_gates_b ++ ") " ++ compCnt
              ++ " - (" ++ circuit_a.name ++ " in " ++ basisLabel basis_gates_a ++ ") " ++ impCnt)
            (toString result))

/-- Embeds `printMetricCircuitDepth` of `Print_Metrics.py` (lines 140-171).
Note the second block's gate-name field is `str(basis_gates_b)` in the
source. -/
def printMetricCircuitDepth (circuit_a circuit_b : Reference Circuit)
    (basis_gates_a basis_gates_b : Option String) : Except PyError String :=
  match callCircuitDepth circuit_a.val basis_gates_a with
  | .error e => .error e
  | .ok ra =>
    let result_for_a := toString ra
    match circuit_b.val with
    | none =>
      .ok (METRIC_OUT "Circuit Depth" ""
        (circuit_a.name ++ " in " ++ basisLabel basis_gates_a) result_for_a)
    | some cb =>
      let result_for_b := toString (metricCircuitDepth cb basis_gates_b)
      .ok (METRIC_OUT "Circuit Depth" ""
          (circuit_a.name ++ " in " ++ basisLabel basis_gates_a) result_for_a
        ++ METRIC_OUT "Circuit Depth" (pyStr basis_gates_b)
          (circuit_b.name ++ " in " ++ basisLabel basis_gates_b) result_for_b)

/-- Embeds `printMetricRatioDepth` of `Print_Metrics.py` (lines 174-200).
The missing-compare error block names `metricRatioGate`, exactly as in the
source (line 184). -/
def printMetricRatioDepth (circuit_a : Reference Circuit)
    (circuit_b : Option (Reference Circuit))
    (basis_gates_a basis_gates_b : Option String) : Except PyError String :=
  match circuit_b with
  | none => .ok (METRIC_ERROR "metricRatioGate" "Compare circuit must be defined.")
  | some bref =>
    match callRatioDepth circuit_a.val bref.val basis_gates_a basis_gates_b with
    | .error e => .error e
    | .ok result =>
      match displayDepth bref basis_gates_b with
      | .error e => .error e
      | .ok compCnt =>
        match displayDepth circuit_a basis_gates_a with
        | .error e => .error e
        | .ok impCnt =>
          .ok (METRIC_OUT "Ratio of Circuit Depths" ""
            ("(" ++ bref.name ++ " in " ++ basisLabel basis_gates_b ++ ") " ++ compCnt
              ++ " / (" ++ circuit_a.name ++ " in " ++ basisLabel basis_gates_a ++ ") " ++ impCnt)
            (ratioResultStr result))

/-- The backend-specific failure of the external counts accessor
(`qiskit.QiskitError` caught in `Print_Metrics.py` line 220). -/
inductive QiskitFault where
  | countsUnavailable
  deriving DecidableEq

/-- The opaque execution outcome returned by the external backend run (spec
section 6, Execution Backend): a textual representation (its Python `str`)
and a best-effort counts accessor that may fail. -/
structure Outcome where
  text : String
  get_counts : Except QiskitFault (List (String × Nat))

/-- The quantum-container value bound by `main` (only its `noise_model`
attribute is read by `printMetricRaw`); the noise model is opaque. -/
structure Container where
  noise_model : String
  deriving DecidableEq

/-- Python `str` of a counts dictionary; an opaque deterministic rendering
(no claim depends on its exact shape). -/
def countsRepr (counts : List (String × Nat)) : String :=
  toString counts

/-- Embeds the counts field of the `printMetricRaw` output template:
`counts if counts else "None"` with Python truthiness (both `None` and an
empty dictionary are falsy and render as the literal string `"None"`). -/
def countsDisplay : Option (List (String × Nat)) → String
  | none => "None"
  | some counts => if counts = [] then "None" else countsRepr counts

/-- Embeds `printMetricRaw` of `Print_Metrics.py` (lines 203-224).  The
external call `Metrics.metricRawResults` (absent from src; spec section 4.1
delegates it to the Execution Backend) is passed in as `runBackend`, so
non-invocation of the backend is expressible as independence from this
argument.  The `try/except qiskit.QiskitError` around `out.get_counts()` is
the match on the accessor's result. -/
def printMetricRaw (runBackend : Nat → Circuit → String → Option String → Outcome)
    (quantum_container : Reference Container) (circuit : Reference Circuit)
    (backend : Reference String) : String :=
  match circuit.val with
  | none => ""
  | some circ =>
    match quantum_container.val with
    | none => ""
    | some container =>
      let out := runBackend 1024 circ container.noise_model backend.val
      let counts : Option (List (String × Nat)) :=
        match out.get_counts with
        | .ok c => some c
        | .error _ => none
      "\n" ++ circuit.name ++ " Raw Results\n" ++ out.text ++ "\nCounts:\n"
        ++ countsDisplay counts ++ "\n"

/-- A deferred metric invocation as enqueued by `handle_argv` of `Baroque.py`
(lines 396-410): the spec's Metric Request tagged variant.  The bound
argument tuples always name the global references, so only the tag and the
gate-string payload vary; `rawInput` and `rawCompare` are the two tuples
enqueued by the `--metricRaw` branch. -/
inductive MetricRequest where
  | countGate (gate_string : String)
  | diffGate (gate_string : String)
  | ratioGate (gate_string : String)
  | diffDepth
  | circuitDepth
  | ratioDepth
  | rawInput
  | rawCompare
  deriving DecidableEq

/-- The metric queue of `Baroque.py` (`queue.Queue`, used single-threaded):
items in arrival order, front first. -/
structure MetricQueue where
  items : List MetricRequest
  deriving DecidableEq

/-- Embeds `metric_queue.put(x)`: append at the back. -/
def MetricQueue.put (q : MetricQueue) (r : MetricRequest) : MetricQueue :=
  ⟨q.items ++ [r]⟩

/-- Embeds the metric-queue effect of one iteration of the option loop of
`handle_argv` (`Baroque.py` lines 354-412): each metric branch, in source
order, appends to the queue; every other branch mutates preferences or
reference slots and leaves the queue unchanged, so those branches are
identity here.  The `--metricRaw` branch performs two puts (lines 409-410). -/
def handle_argv_opt (q : MetricQueue) (opt arg : String) : MetricQueue :=
  let q := if opt = "--metricCountGate" then q.put (.countGate arg) else q
  let q := if opt = "--metricDiffGate" then q.put (.diffGate arg) else q
  let q := if opt = "--metricRatioGate" then q.put (.ratioGate arg) else q
  let q := if opt = "--metricDiffDepth" then q.put .diffDepth else q
  let q := if opt = "--metricCircuitDepth" then q.put .circuitDepth else q
  let q := if opt = "--metricRatioDepth" then q.put .ratioDepth else q
  let q := if opt = "--metricRaw" then (q.put .rawInput).put .rawCompare else q
  q

/-- Embeds the metric-queue effect of `handle_argv` (`Baroque.py` lines
307-413): the parsed options are processed in order, each through the option
loop body. -/
def handle_argv (opts : List (String × String)) (metric_queue : MetricQueue) :
    MetricQueue :=
  opts.foldl (fun q p => handle_argv_opt q p.1 p.2) metric_queue

/-- The recognized metric instructions of `handle_argv`. -/
def metricOptStrings : List String :=
  ["--metricCountGate", "--metricDiffGate", "--metricRatioGate",
   "--metricDiffDepth", "--metricCircuitDepth", "--metricRatioDepth",
   "--metricRaw"]

/-- The requests one option contributes to the queue: the specification-side
characterisation of `handle_argv_opt` (empty for every non-metric option). -/
def requestsFor (opt arg : String) : List MetricRequest :=
  if opt = "--metricCountGate" then [.countGate arg]
  else if opt = "--metricDiffGate" then [.diffGate arg]
  else if opt = "--metricRatioGate" then [.ratioGate arg]
  else if opt = "--metricDiffDepth" then [.diffDepth]
  else if opt = "--metricCircuitDepth" then [.circuitDepth]
  else if opt = "--metricRatioDepth" then [.ratioDepth]
  else if opt = "--metricRaw" then [.rawInput, .rawCompare]
  else []

/-- The drain-time values of the global reference slots of `Baroque.py`
(lines 69-83) read by the enqueued argument tuples, together with the
external backend-run collaborator used by the Raw metric. -/
structure Config where
  inputCircuit : Reference Circuit
  compareCircuit : Reference Circuit
  containerInput : Reference Container
  containerCompare : Reference Container
  backendInput : Reference String
  backendCompare : Reference String
  runBackend : Nat → Circuit → String → Option String → Outcome

/-- Evaluates one dequeued request, `current_metric(*args)` of `run_metrics`
(`Baroque.py` line 425), with the argument tuples exactly as enqueued by
`handle_argv`: the two-circuit formatters receive the compare-circuit
reference itself (never Python `None`). -/
def evalRequest (cfg : Config) : MetricRequest → Except PyError String
  | .countGate g => printMetricCountGate cfg.inputCircuit cfg.compareCircuit g
  | .diffGate g => printMetricDiffGate cfg.inputCircuit (some cfg.compareCircuit) g
  | .ratioGate g => printMetricRatioGate cfg.inputCircuit (some cfg.compareCircuit) g
  | .diffDepth => printMetricDiffDepth cfg.inputCircuit (some cfg.compareCircuit) none none
  | .circuitDepth => printMetricCircuitDepth cfg.inputCircuit cfg.compareCircuit none none
  | .ratioDepth => printMetricRatioDepth cfg.inputCircuit (some cfg.compareCircuit) none none
  | .rawInput =>
      .ok (printMetricRaw cfg.runBackend cfg.containerInput cfg.inputCircuit cfg.backendInput)
  | .rawCompare =>
      .ok (printMetricRaw cfg.runBackend cfg.containerCompare cfg.compareCircuit cfg.backendCompare)

/-- The while loop of `run_metrics` (`Baroque.py` lines 422-426): pop the
front request, append its text to the accumulator, continue until the queue
is empty; an uncaught exception in a formatter propagates out and aborts the
loop. -/
def runMetricsLoop (cfg : Config) : List MetricRequest → String → Except PyError String
  | [], out => .ok out
  | r :: rest, out =>
    match evalRequest cfg r with
    | .error e => .error e
    | .ok s => runMetricsLoop cfg rest (out ++ s)

/-- Embeds `run_metrics` of `Baroque.py` (lines 416-426). -/
def run_metrics (cfg : Config) (metric_queue : MetricQueue) : Except PyError String :=
  runMetricsLoop cfg metric_queue.items ""

/-- Embeds `no_valid_backend_check` of `Baroque.py` (lines 249-269).  Each
requested backend name is `Option String` (`none` models Python `None`); the
availability flags start true for an unrequested (empty or `None`) name and
the single loop over the catalog raises each flag on an exact, case-sensitive
string match.  The error message printed on failure is console output with
no bearing on the returned value. -/
def no_valid_backend_check (available : List String)
    (backend1 backend2 : Option String) : Bool :=
  let one_start : Bool := if backend1 ≠ none ∧ backend1 ≠ some "" then false else true
  let two_start : Bool := if backend2 ≠ none ∧ backend2 ≠ some "" then false else true
  let flags := available.foldl
    (fun (fl : Bool × Bool) name =>
      (if backend1 = some name then true else fl.1,
       if backend2 = some name then true else fl.2))
    (one_start, two_start)
  if flags.1 = true ∧ flags.2 = true then true else false

/-- The observable outcome of the availability gate in `main`. -/
structure BackendGateResult where
  catalogPrinted : Bool
  metricsProceed : Bool
  deriving DecidableEq

/-- Embeds `main` of `Baroque.py` lines 163-165: when the availability check
fails, `show_available_backends` prints the full catalog and `main` returns
before any metric executes; otherwise execution proceeds to the metric
sections. -/
def mainBackendGate (backend_list : List String)
    (backend_str_compare backend_str_input : Option String) : BackendGateResult :=
  if no_valid_backend_check backend_list backend_str_compare backend_str_input then
    ⟨false, true⟩
  else
    ⟨true, false⟩

/-- A sample circuit with no controlled-not gates (depth reported as 2 by
the opaque depth measure). -/
def sampleA : Circuit := ⟨["x", "measure"], fun _ => 2⟩

/-- A sample circuit with three controlled-not gates (depth reported as 4). -/
def sampleB : Circuit := ⟨["cx", "cx", "cx", "measure"], fun _ => 4⟩

/-- A sample drain-time configuration: both circuits bound, raw-metric
collaborators unbound. -/
def sampleCfg : Config :=
  { inputCircuit := ⟨some sampleA, "a.qasm"⟩
    compareCircuit := ⟨some sampleB, "b.qasm"⟩
    containerInput := ⟨none, ""⟩
    containerCompare := ⟨none, ""⟩
    backendInput := ⟨none, ""⟩
    backendCompare := ⟨none, ""⟩
    runBackend := fun _ _ _ _ => ⟨"", .error .countsUnavailable⟩ }

/-- A Boolean-valued if over a decidable proposition is true exactly when
the proposition holds. -/
theorem ite_true_false_iff (c : Prop) [Decidable c] :
    ((if c then true else false) = true) ↔ c := by
  by_cases h : c <;> simp [h]

/-- One option-loop iteration contributes exactly `requestsFor` to the
queue. -/
theorem handle_argv_opt_items (q : MetricQueue) (opt arg : String) :
    (handle_argv_opt q opt arg).items = q.items ++ requestsFor opt arg := by
  by_cases h1 : opt = "--metricCountGate"
  · subst h1; rfl
  by_cases h2 : opt = "--metricDiffGate"
  · subst h2; rfl
  by_cases h3 : opt = "--metricRatioGate"
  · subst h3; rfl
  by_cases h4 : opt = "--metricDiffDepth"
  · subst h4; rfl
  by_cases h5 : opt = "--metricCircuitDepth"
  · subst h5; rfl
  by_cases h6 : opt = "--metricRatioDepth"
  · subst h6; rfl
  by_cases h7 : opt = "--metricRaw"
  · subst h7; simp [handle_argv_opt, requestsFor, MetricQueue.put]
  simp [handle_argv_opt, requestsFor, h1, h2, h3, h4, h5, h6, h7]

/-- The queue after `handle_argv` is the starting queue followed by every
option's contribution, in option order. -/
theorem handle_argv_items : ∀ (opts : List (String × String)) (q : MetricQueue),
    (handle_argv opts q).items = q.items ++ opts.flatMap (fun p => requestsFor p.1 p.2) := by
  intro opts
  induction opts with
  | nil => intro q; simp [handle_argv]
  | cons p ps ih =>
    intro q
    have hstep : handle_argv (p :: ps) q = handle_argv ps (handle_argv_opt q p.1 p.2) := rfl
    rw [hstep, ih, handle_argv_opt_items]
    simp [List.append_assoc]

/-- The queue-runner loop over requests that all return blocks produces the
concatenation of those blocks onto the accumulator. -/
theorem runMetricsLoop_blocks (cfg : Config) :
    ∀ (reqs : List MetricRequest) (blocks : List String) (out : String),
      reqs.map (evalRequest cfg) = blocks.map Except.ok →
      runMetricsLoop cfg reqs out = .ok (blocks.foldl (fun a b => a ++ b) out) := by
  intro reqs
  induction reqs with
  | nil =>
    intro blocks out h
    cases blocks with
    | nil => simp [runMetricsLoop]
    | cons b bs => simp at h
  | cons r rs ih =>
    intro blocks out h
    cases blocks with
    | nil => simp at h
    | cons b bs =>
      simp only [List.map_cons, List.cons.injEq] at h
      obtain ⟨h1, h2⟩ := h
      simp only [runMetricsLoop, h1]
      simpa using ih bs (out ++ b) h2

/-- The two availability flags after the catalog loop: each is its starting
value or an exact-match hit somewhere in the catalog. -/
theorem backend_fold_flags (b1 b2 : Option String) :
    ∀ (l : List String) (i1 i2 : Bool),
      l.foldl (fun (fl : Bool × Bool) name =>
        (if b1 = some name then true else fl.1,
         if b2 = some name then true else fl.2)) (i1, i2)
      = (i1 || l.any (fun n => decide (b1 = some n)),
         i2 || l.any (fun n => decide (b2 = some n))) := by
  intro l
  induction l with
  | nil => intro i1 i2; simp
  | cons x xs ih =>
    intro i1 i2
    simp only [List.foldl_cons, List.any_cons]
    rw [ih]
    by_cases hx1 : b1 = some x <;> by_cases hx2 : b2 = some x <;>
      simp [hx1, hx2, Bool.or_assoc, Bool.or_comm, Bool.or_left_comm]

/-- One requested name passes the availability check exactly when it is
unrequested (the `None` or empty-string sentinel) or appears verbatim in the
catalog. -/
theorem backend_flag_spec (available : List String) (b : Option String) :
    (((if b ≠ none ∧ b ≠ some "" then false else true)
        || available.any (fun n => decide (b = some n))) = true)
    ↔ (b = none ∨ b = some "" ∨ ∃ s, b = some s ∧ s ∈ available) := by
  cases b with
  | none => simp
  | some s =>
    by_cases hs : s = ""
    · subst hs; simp
    · simp [hs, List.any_eq_true]

/-- C1: the claim says a two-circuit metric invoked while the compare
circuit's Named Reference is empty returns the `MissingCompareCircuit`
error block without calling the metric or crashing.  On the code this
fails: the formatters test `circuit_b is None` on the Reference object
itself, which never holds for the enqueued argument tuples, so with an
empty compare reference each two-circuit formatter calls the metric on the
`None` value and crashes.  This theorem evaluates all four formatters (and
the enqueued `diffDepth` request path) at an empty compare reference and
shows the uncaught-exception outcome. -/
theorem c1_unbound_compare_crashes :
    Reference.isEmpty ⟨none, ""⟩ = true ∧
    printMetricDiffGate ⟨some sampleA, "a.qasm"⟩ (some ⟨none, ""⟩) "cx"
      = .error .noneTypeAttribute ∧
    printMetricRatioGate ⟨some sampleA, "a.qasm"⟩ (some ⟨none, ""⟩) "cx"
      = .error .noneTypeAttribute ∧
    printMetricDiffDepth ⟨some sampleA, "a.qasm"⟩ (some ⟨none, ""⟩) none none
      = .error .noneTypeAttribute ∧
    printMetricRatioDepth ⟨some sampleA, "a.qasm"⟩ (some ⟨none, ""⟩) none none
      = .error .noneTypeAttribute ∧
    evalRequest { sampleCfg with compareCircuit := ⟨none, ""⟩ } .diffDepth
      = .error .noneTypeAttribute :=
  ⟨rfl, rfl, rfl, rfl, rfl, rfl⟩

/-- C2 counterexample: `--metricRaw` is a recognized metric instruction yet
its branch appends two Metric Requests, so the claim that every recognized
metric instruction appends exactly one request is false. -/
theorem c2_raw_appends_two :
    "--metricRaw" ∈ metricOptStrings ∧
    (handle_argv [("--metricRaw", "")] ⟨[]⟩).items
      = [MetricRequest.rawInput, MetricRequest.rawCompare] ∧
    (handle_argv [("--metricRaw", "")] ⟨[]⟩).items.length ≠ 1 := by
  refine ⟨by decide, rfl, by decide⟩

/-- C2 (amended): every recognized metric instruction except `--metricRaw`
appends exactly one Metric Request; `--metricRaw` appends exactly two (the
input-circuit request then the compare-circuit request); and the queue after
argument handling is the starting queue followed by each instruction's
requests in instruction order. -/
theorem c2_queue_append_order :
    (∀ (opts : List (String × String)) (q : MetricQueue),
      (handle_argv opts q).items
        = q.items ++ opts.flatMap (fun p => requestsFor p.1 p.2)) ∧
    (∀ opt, opt ∈ metricOptStrings → opt ≠ "--metricRaw" →
      ∀ arg, (requestsFor opt arg).length = 1) ∧
    (∀ arg, (requestsFor "--metricRaw" arg).length = 2) := by
  refine ⟨handle_argv_items, ?_, fun arg => rfl⟩
  intro opt hmem hne arg
  simp only [metricOptStrings, List.mem_cons, List.mem_singleton] at hmem
  rcases hmem with h | h | h | h | h | h | h | h
  · subst h; rfl
  · subst h; rfl
  · subst h; rfl
  · subst h; rfl
  · subst h; rfl
  · subst h; rfl
  · exact absurd h hne
  · simp at h

/-- C2 witness: the amended theorem applied to the concrete instruction
`--metricCountGate cx`. -/
theorem c2_queue_append_order_witness :
    "--metricCountGate" ∈ metricOptStrings ∧
    "--metricCountGate" ≠ "--metricRaw" ∧
    (requestsFor "--metricCountGate" "cx").length = 1 :=
  ⟨by decide, by decide,
    c2_queue_append_order.2.1 "--metricCountGate" (by decide) (by decide) "cx"⟩

/-- C3: the queue runner drains the queue front-first in FIFO order; when
every request's formatter returns a textual block (error blocks included,
since they are ordinary returned strings), the run produces exactly the
concatenation of those blocks in queue order with no added separators, the
structural recursion consuming each request exactly once down to the empty
queue; and a precondition-failed request yields its error text as an
ordinary block, so later requests still execute. -/
theorem c3_queue_runner :
    (∀ (cfg : Config) (reqs : List MetricRequest) (blocks : List String),
      reqs.map (evalRequest cfg) = blocks.map Except.ok →
      run_metrics cfg ⟨reqs⟩ = .ok (blocks.foldl (fun a b => a ++ b) "")) ∧
    (∀ (cfg : Config) (g : String), valid_gate_strings.contains g = false →
      evalRequest cfg (.countGate g)
        = .ok (METRIC_ERROR "metricCountGate" "Invalid gate string chosen.")) := by
  constructor
  · intro cfg reqs blocks h
    exact runMetricsLoop_blocks cfg reqs blocks "" h
  · intro cfg g hg
    simp only [evalRequest, printMetricCountGate]
    rw [hg]
    simp

/-- C3 witness: a concrete queue whose first request fails its gate-identifier
precondition and whose second succeeds; the run returns the two blocks
concatenated in order. -/
theorem c3_queue_runner_witness :
    [MetricRequest.countGate "zz", MetricRequest.circuitDepth].map (evalRequest sampleCfg)
      = [METRIC_ERROR "metricCountGate" "Invalid gate string chosen.",
         METRIC_OUT "Circuit Depth" "" ("a.qasm" ++ " in " ++ "Default Gates") "2"
           ++ METRIC_OUT "Circuit Depth" "None" ("b.qasm" ++ " in " ++ "Default Gates") "4"].map Except.ok ∧
    run_metrics sampleCfg ⟨[MetricRequest.countGate "zz", MetricRequest.circuitDepth]⟩
      = .ok ([METRIC_ERROR "metricCountGate" "Invalid gate string chosen.",
              METRIC_OUT "Circuit Depth" "" ("a.qasm" ++ " in " ++ "Default Gates") "2"
                ++ METRIC_OUT "Circuit Depth" "None" ("b.qasm" ++ " in " ++ "Default Gates") "4"].foldl
             (fun a b => a ++ b) "") :=
  ⟨rfl, c3_queue_runner.1 sampleCfg _ _ rfl⟩

/-- C4 counterexample: the missing-compare precondition failure of the
RatioDepth formatter produces an `ERROR - ...` block that names
`metricRatioGate`, not the requested metric `metricRatioDepth`, so the claim
that the error block always names the requested metric is false. -/
theorem c4_ratio_depth_wrong_name :
    printMetricRatioDepth ⟨some sampleA, "a.qasm"⟩ none none none
      = .ok (METRIC_ERROR "metricRatioGate" "Compare circuit must be defined.") ∧
    "metricRatioGate" ≠ "metricRatioDepth" :=
  ⟨rfl, by decide⟩

/-- C4 (amended): every precondition failure produces a block of the exact
`METRIC_ERROR` form `ERROR - <metricName>: <errorNote>` without calling the
metric implementation (each equation holds for every circuit reference, so
the output does not depend on the circuits at all); the metric name in the
block is the requested metric in every case except the missing-compare
failure of `printMetricRatioDepth`, which names `metricRatioGate`. -/
theorem c4_error_block_form :
    (∀ (a b : Reference Circuit) (g : String), valid_gate_strings.contains g = false →
      printMetricCountGate a b g
        = .ok (METRIC_ERROR "metricCountGate" "Invalid gate string chosen.")) ∧
    (∀ (a : Reference Circuit) (b : Option (Reference Circuit)) (g : String),
      valid_gate_strings.contains g = false →
      printMetricDiffGate a b g
        = .ok (METRIC_ERROR "metricDiffGate" "Invalid gate string chosen.")) ∧
    (∀ (a : Reference Circuit) (b : Option (Reference Circuit)) (g : String),
      valid_gate_strings.contains g = false →
      printMetricRatioGate a b g
        = .ok (METRIC_ERROR "metricRatioGate" "Invalid gate string chosen.")) ∧
    (∀ (a : Reference Circuit) (g : String), valid_gate_strings.contains g = true →
      printMetricDiffGate a none g
        = .ok (METRIC_ERROR "metricDiffGate" "Compare circuit must be defined.")) ∧
    (∀ (a : Reference Circuit) (g : String), valid_gate_strings.contains g = true →
      printMetricRatioGate a none g
        = .ok (METRIC_ERROR "metricRatioGate" "Compare circuit must be defined.")) ∧
    (∀ (a : Reference Circuit) (ba bb : Option String),
      printMetricDiffDepth a none ba bb
        = .ok (METRIC_ERROR "metricDiffDepth" "Compare circuit must be defined.")) ∧
    (∀ (a : Reference Circuit) (ba bb : Option String),
      printMetricRatioDepth a none ba bb
        = .ok (METRIC_ERROR "metricRatioGate" "Compare circuit must be defined.")) := by
  refine ⟨?_, ?_, ?_, ?_, ?_, fun a ba bb => rfl, fun a ba bb => rfl⟩
  · intro a b g hg
    simp only [printMetricCountGate]
    rw [hg]
    simp
  · intro a b g hg
    simp only [printMetricDiffGate]
    rw [hg]
    simp
  · intro a b g hg
    simp only [printMetricRatioGate]
    rw [hg]
    simp
  · intro a g hg
    simp only [printMetricDiffGate]
    rw [hg]
    simp
  · intro a g hg
    simp only [printMetricRatioGate]
    rw [hg]
    simp

/-- C4 witness: the amended theorem applied at the unrecognized gate string
`zz` and at a missing compare circuit. -/
theorem c4_error_block_form_witness :
    valid_gate_strings.contains "zz" = false ∧
    valid_gate_strings.contains "cx" = true ∧
    printMetricCountGate ⟨some sampleA, "a.qasm"⟩ ⟨some sampleB, "b.qasm"⟩ "zz"
      = .ok (METRIC_ERROR "metricCountGate" "Invalid gate string chosen.") ∧
    printMetricDiffGate ⟨some sampleA, "a.qasm"⟩ none "cx"
      = .ok (METRIC_ERROR "metricDiffGate" "Compare circuit must be defined.") :=
  ⟨by decide, by decide,
    c4_error_block_form.1 ⟨some sampleA, "a.qasm"⟩ ⟨some sampleB, "b.qasm"⟩ "zz" (by decide),
    c4_error_block_form.2.2.2.1 ⟨some sampleA, "a.qasm"⟩ "cx" (by decide)⟩

/-- C5 counterexample: with a recognized gate whose count in the input
circuit is zero, the ratio metric signals the `DivisionByZero` condition
(no crash, no numeric or infinite value), but the formatter renders it
inline in the Result field of an ordinary `METRIC_OUT` block — not as an
`ERROR - ...` block — so the rendered-as-an-error-block part of the claim is
false at this input. -/
theorem c5_div_zero_not_error_block :
    metricCountGate sampleA "cx" = 0 ∧
    metricRatioGate sampleA sampleB "cx" = .error .divisionByZero ∧
    printMetricRatioGate ⟨some sampleA, "a.qasm"⟩ (some ⟨some sampleB, "b.qasm"⟩) "cx"
      = .ok (METRIC_OUT "Ratio of Gate Occurrences" "cx"
          ("(" ++ "b.qasm" ++ ") " ++ "3" ++ " / (" ++ "a.qasm" ++ ") " ++ "0")
          "DivisionByZero") ∧
    isErrorBlock (METRIC_OUT "Ratio of Gate Occurrences" "cx"
          ("(" ++ "b.qasm" ++ ") " ++ "3" ++ " / (" ++ "a.qasm" ++ ") " ++ "0")
          "DivisionByZero") = false ∧
    isErrorBlock (METRIC_ERROR "metricRatioGate" "Compare circuit must be defined.") = true := by
  refine ⟨rfl, rfl, rfl, by decide, by decide⟩

/-- C5 (amended): for all circuits and any recognized gate whose count in
the input circuit is zero, the ratio-gate metric yields the `DivisionByZero`
defined failure — neither an unhandled exception nor a silently returned
infinite or numeric value — and the formatter renders the condition inline
in the Result field of the metric's normal output block rather than as an
`ERROR`-format block. -/
theorem c5_division_by_zero_defined_failure :
    ∀ (a b : Circuit) (an bn g : String),
      valid_gate_strings.contains g = true →
      metricCountGate a g = 0 →
      metricRatioGate a b g = .error .divisionByZero ∧
      printMetricRatioGate ⟨some a, an⟩ (some ⟨some b, bn⟩) g
        = .ok (METRIC_OUT "Ratio of Gate Occurrences" g
            ("(" ++ bn ++ ") " ++ toString (metricCountGate b g)
              ++ " / (" ++ an ++ ") " ++ toString (metricCountGate a g))
            "DivisionByZero") := by
  intro a b an bn g hg h0
  have hratio : metricRatioGate a b g = .error .divisionByZero := by
    simp [metricRatioGate, h0]
  refine ⟨hratio, ?_⟩
  simp only [printMetricRatioGate]
  rw [hg]
  simp [callRatioGate, hratio, displayCount, callCountGate, ratioResultStr]

/-- C5 witness: the amended theorem at the concrete circuits with zero and
three controlled-not gates. -/
theorem c5_division_by_zero_witness :
    valid_gate_strings.contains "cx" = true ∧
    metricCountGate sampleA "cx" = 0 ∧
    (metricRatioGate sampleA sampleB "cx" = .error .divisionByZero ∧
     printMetricRatioGate ⟨some sampleA, "a.qasm"⟩ (some ⟨some sampleB, "b.qasm"⟩) "cx"
       = .ok (METRIC_OUT "Ratio of Gate Occurrences" "cx"
           ("(" ++ "b.qasm" ++ ") " ++ toString (metricCountGate sampleB "cx")
             ++ " / (" ++ "a.qasm" ++ ") " ++ toString (metricCountGate sampleA "cx"))
           "DivisionByZero")) :=
  ⟨by decide, by decide,
    c5_division_by_zero_defined_failure sampleA sampleB "a.qasm" "b.qasm" "cx"
      (by decide) (by decide)⟩

/-- C6: the availability check returns true exactly when each requested
backend name is unrequested (`None` or the empty string, which never causes
failure) or appears in the catalog under exact case-sensitive match; and
when the check fails, `main` prints the full catalog and returns before any
metric executes. -/
theorem c6_backend_availability :
    ∀ (available : List String) (b1 b2 : Option String),
      (no_valid_backend_check available b1 b2 = true ↔
        ((b1 = none ∨ b1 = some "" ∨ ∃ s, b1 = some s ∧ s ∈ available) ∧
         (b2 = none ∨ b2 = some "" ∨ ∃ s, b2 = some s ∧ s ∈ available))) ∧
      (no_valid_backend_check available b1 b2 = false →
        mainBackendGate available b1 b2 = ⟨true, false⟩) := by
  intro available b1 b2
  constructor
  · simp only [no_valid_backend_check]
    rw [backend_fold_flags]
    rw [ite_true_false_iff]
    rw [← backend_flag_spec available b1, ← backend_flag_spec available b2]
  · intro h
    simp [mainBackendGate, h]

/-- C6 witness: the spec scenario — catalog with two simulators, compare
name unset (empty), input name `sim_x` absent from the catalog: the check
fails, the catalog is printed, and metrics do not proceed. -/
theorem c6_backend_availability_witness :
    no_valid_backend_check ["sim_a", "sim_b"] (some "") (some "sim_x") = false ∧
    mainBackendGate ["sim_a", "sim_b"] (some "") (some "sim_x") = ⟨true, false⟩ :=
  ⟨by decide,
    (c6_backend_availability ["sim_a", "sim_b"] (some "") (some "sim_x")).2 (by decide)⟩

/-- C7: the two-circuit display metrics CountGate and CircuitDepth emit one
block for the primary circuit when the compare reference holds `None`, and
exactly the primary block followed by the compare block when both circuits
are present. -/
theorem c7_display_metrics :
    ∀ (a b : Reference Circuit) (ca : Circuit) (g : String) (ba bb : Option String),
      a.val = some ca →
      valid_gate_strings.contains g = true →
      ((b.val = none →
          printMetricCountGate a b g
            = .ok (METRIC_OUT "Count of Gate Occurrences" g a.name
                (toString (metricCountGate ca g))) ∧
          printMetricCircuitDepth a b ba bb
            = .ok (METRIC_OUT "Circuit Depth" "" (a.name ++ " in " ++ basisLabel ba)
                (toString (metricCircuitDepth ca ba)))) ∧
       (∀ cb, b.val = some cb →
          printMetricCountGate a b g
            = .ok (METRIC_OUT "Count of Gate Occurrences" g a.name
                  (toString (metricCountGate ca g))
                ++ METRIC_OUT "Count of Gate Occurrences" g b.name
                  (toString (metricCountGate cb g))) ∧
          printMetricCircuitDepth a b ba bb
            = .ok (METRIC_OUT "Circuit Depth" "" (a.name ++ " in " ++ basisLabel ba)
                  (toString (metricCircuitDepth ca ba))
                ++ METRIC_OUT "Circuit Depth" (pyStr bb)
                  (b.name ++ " in " ++ basisLabel bb)
                  (toString (metricCircuitDepth cb bb))))) := by
  intro a b ca g ba bb ha hg
  constructor
  · intro hb
    constructor
    · simp only [printMetricCountGate]
      rw [hg]
      simp [callCountGate, ha, hb]
    · simp [printMetricCircuitDepth, callCircuitDepth, ha, hb]
  · intro cb hb
    constructor
    · simp only [printMetricCountGate]
      rw [hg]
      simp [callCountGate, ha, hb]
    · simp [printMetricCircuitDepth, callCircuitDepth, ha, hb]

/-- C7 witness: the display metrics at the sample circuits, once with the
compare reference unbound and once with it bound. -/
theorem c7_display_metrics_witness :
    (⟨some sampleA, "a.qasm"⟩ : Reference Circuit).val = some sampleA ∧
    valid_gate_strings.contains "cx" = true ∧
    (⟨none, ""⟩ : Reference Circuit).val = none ∧
    (⟨some sampleB, "b.qasm"⟩ : Reference Circuit).val = some sampleB ∧
    (printMetricCountGate ⟨some sampleA, "a.qasm"⟩ ⟨none, ""⟩ "cx"
       = .ok (METRIC_OUT "Count of Gate Occurrences" "cx" "a.qasm"
           (toString (metricCountGate sampleA "cx"))) ∧
     printMetricCircuitDepth ⟨some sampleA, "a.qasm"⟩ ⟨none, ""⟩ none none
       = .ok (METRIC_OUT "Circuit Depth" "" ("a.qasm" ++ " in " ++ basisLabel none)
           (toString (metricCircuitDepth sampleA none)))) ∧
    (printMetricCountGate ⟨some sampleA, "a.qasm"⟩ ⟨some sampleB, "b.qasm"⟩ "cx"
       = .ok (METRIC_OUT "Count of Gate Occurrences" "cx" "a.qasm"
             (toString (metricCountGate sampleA "cx"))
           ++ METRIC_OUT "Count of Gate Occurrences" "cx" "b.qasm"
             (toString (metricCountGate sampleB "cx"))) ∧
     printMetricCircuitDepth ⟨some sampleA, "a.qasm"⟩ ⟨some sampleB, "b.qasm"⟩ none none
       = .ok (METRIC_OUT "Circuit Depth" "" ("a.qasm" ++ " in " ++ basisLabel none)
             (toString (metricCircuitDepth sampleA none))
           ++ METRIC_OUT "Circuit Depth" (pyStr none)
             ("b.qasm" ++ " in " ++ basisLabel none)
             (toString (metricCircuitDepth sampleB none)))) :=
  ⟨rfl, by decide, rfl, rfl,
    (c7_display_metrics ⟨some sampleA, "a.qasm"⟩ ⟨none, ""⟩ sampleA "cx" none none
      rfl (by decide)).1 rfl,
    (c7_display_metrics ⟨some sampleA, "a.qasm"⟩ ⟨some sampleB, "b.qasm"⟩ sampleA "cx" none none
      rfl (by decide)).2 sampleB rfl⟩

/-- C8: the Raw formatter returns the empty string — not an error block —
whenever the input-circuit reference or the backend-container reference is
unset, and for every possible backend-run collaborator, so the backend is
never invoked on that path. -/
theorem c8_raw_unbound_empty :
    ∀ (runBackend : Nat → Circuit → String → Option String → Outcome)
      (quantum_container : Reference Container) (circuit : Reference Circuit)
      (backend : Reference String),
      (circuit.val = none →
        printMetricRaw runBackend quantum_container circuit backend = "") ∧
      (quantum_container.val = none →
        printMetricRaw runBackend quantum_container circuit backend = "") := by
  intro runBackend quantum_container circuit backend
  constructor
  · intro h
    simp [printMetricRaw, h]
  · intro h
    cases hc : circuit.val with
    | none => simp [printMetricRaw, hc]
    | some c => simp [printMetricRaw, hc, h]

/-- C8 witness: both unset cases at concrete references and a concrete
backend-run collaborator. -/
theorem c8_raw_unbound_empty_witness :
    (⟨none, ""⟩ : Reference Circuit).val = none ∧
    (⟨none, ""⟩ : Reference Container).val = none ∧
    printMetricRaw (fun _ _ _ _ => ⟨"RUN", .ok [("00", 1024)]⟩)
      ⟨some ⟨"noise"⟩, "qc"⟩ ⟨none, ""⟩ ⟨some "aer_simulator", "bk"⟩ = "" ∧
    printMetricRaw (fun _ _ _ _ => ⟨"RUN", .ok [("00", 1024)]⟩)
      ⟨none, ""⟩ ⟨some sampleA, "a.qasm"⟩ ⟨some "aer_simulator", "bk"⟩ = "" :=
  ⟨rfl, rfl,
    (c8_raw_unbound_empty (fun _ _ _ _ => ⟨"RUN", .ok [("00", 1024)]⟩)
      ⟨some ⟨"noise"⟩, "qc"⟩ ⟨none, ""⟩ ⟨some "aer_simulator", "bk"⟩).1 rfl,
    (c8_raw_unbound_empty (fun _ _ _ _ => ⟨"RUN", .ok [("00", 1024)]⟩)
      ⟨none, ""⟩ ⟨some sampleA, "a.qasm"⟩ ⟨some "aer_simulator", "bk"⟩).2 rfl⟩

/-- C9: when the execution outcome's counts accessor fails with the
backend-specific error, the Raw formatter renders the literal string `None`
in the counts position of its block; the formatter is a total function into
strings, so the failure does not propagate out of it. -/
theorem c9_counts_failure_renders_none :
    ∀ (runBackend : Nat → Circuit → String → Option String → Outcome)
      (quantum_container : Reference Container) (circuit : Reference Circuit)
      (backend : Reference String) (c : Circuit) (cont : Container) (f : QiskitFault),
      circuit.val = some c →
      quantum_container.val = some cont →
      (runBackend 1024 c cont.noise_model backend.val).get_counts = .error f →
      printMetricRaw runBackend quantum_container circuit backend
        = "\n" ++ circuit.name ++ " Raw Results\n"
          ++ (runBackend 1024 c cont.noise_model backend.val).text
          ++ "\nCounts:\n" ++ "None" ++ "\n" := by
  intro runBackend quantum_container circuit backend c cont f hc hq herr
  simp [printMetricRaw, hc, hq, herr, countsDisplay]

/-- C9 witness: a backend-run collaborator whose outcome's counts accessor
always fails; the formatter output carries the literal `None`. -/
theorem c9_counts_failure_witness :
    (⟨some sampleA, "a.qasm"⟩ : Reference Circuit).val = some sampleA ∧
    (⟨some ⟨"noise"⟩, "qc"⟩ : Reference Container).val = some ⟨"noise"⟩ ∧
    (Outcome.mk "OUTTEXT" (.error .countsUnavailable)).get_counts
      = .error QiskitFault.countsUnavailable ∧
    printMetricRaw (fun _ _ _ _ => ⟨"OUTTEXT", .error .countsUnavailable⟩)
      ⟨some ⟨"noise"⟩, "qc"⟩ ⟨some sampleA, "a.qasm"⟩ ⟨some "aer_simulator", "bk"⟩
      = "\n" ++ "a.qasm" ++ " Raw Results\n" ++ "OUTTEXT" ++ "\nCounts:\n" ++ "None" ++ "\n" :=
  ⟨rfl, rfl, rfl,
    c9_counts_failure_renders_none (fun _ _ _ _ => ⟨"OUTTEXT", .error .countsUnavailable⟩)
      ⟨some ⟨"noise"⟩, "qc"⟩ ⟨some sampleA, "a.qasm"⟩ ⟨some "aer_simulator", "bk"⟩
      sampleA ⟨"noise"⟩ .countsUnavailable rfl rfl rfl⟩

/-- C10: in the depth-metric result notes the Python guard expression
evaluates to `None` (the empty string is falsy in `or`), so the guard is
equivalent to `is not None`: the `Default Gates` branch is selected exactly
for a `None` basis argument, an empty-string basis renders as the empty
string (which differs from `Default Gates`), and any other basis string
renders as itself; shown both on the label expression and inside
`printMetricCircuitDepth` output blocks. -/
theorem c10_basis_label_guard :
    pyEmptyOrNone = none ∧
    (∀ b : Option String, (b ≠ pyEmptyOrNone) ↔ (b ≠ none)) ∧
    basisLabel none = "Default Gates" ∧
    basisLabel (some "") = "" ∧
    ("" : String) ≠ "Default Gates" ∧
    (∀ s : String, basisLabel (some s) = s) ∧
    printMetricCircuitDepth ⟨some sampleA, "a.qasm"⟩ ⟨none, ""⟩ none none
      = .ok (METRIC_OUT "Circuit Depth" "" ("a.qasm" ++ " in " ++ "Default Gates") "2") ∧
    printMetricCircuitDepth ⟨some sampleA, "a.qasm"⟩ ⟨none, ""⟩ (some "") none
      = .ok (METRIC_OUT "Circuit Depth" "" ("a.qasm" ++ " in " ++ "") "2") := by
  refine ⟨rfl, ?_, rfl, rfl, by decide, ?_, rfl, rfl⟩
  · intro b
    simp [pyEmptyOrNone, pyOrElse]
  · intro s
    rfl
